import Mathlib

/-!
Verification development for the resilient extraction engine in
`src/ingestion/basketball_ref_scraper.py` (class `BasketballReferenceScraper`).

The Python source is shallowly embedded: strings are `String`/`List Char`,
Python `None`-carrying values are `Option`, raising code returns `Except`,
and the regular-expression calls of the source are embedded as executable
matchers implementing exactly the concrete patterns the source passes to
`re.search`.  Machinery external to the repository (BeautifulSoup parsing of
an HTML fragment into a table) is abstracted as a function argument
`soupParse : String → Option Table`.
-/

namespace BRScraper

/-- ASCII whitespace, the characters matched by Python `\s` on this input
    family (space, tab, newline, carriage return, vertical tab, form feed). -/
def isSpaceCh (c : Char) : Bool :=
  c == ' ' || c == '\t' || c == '\n' || c == '\r' || c == Char.ofNat 11 || c == Char.ofNat 12

/-- Python `\d` (ASCII digits). -/
def isDigitCh (c : Char) : Bool :=
  ('0' ≤ c) && (c ≤ '9')

/-- Python `\w` (ASCII word characters), used for `\b` word boundaries. -/
def isWordCh (c : Char) : Bool :=
  (('A' ≤ c) && (c ≤ 'Z')) || (('a' ≤ c) && (c ≤ 'z')) || isDigitCh c || c == '_'

/-- Case-insensitive character comparison (model of `re.IGNORECASE`). -/
def lowEq (a b : Char) : Bool :=
  a.toLower == b.toLower

/-- Case-insensitive "is this literal a prefix here". -/
def prefCI : List Char → List Char → Bool
  | [], _ => true
  | _ :: _, [] => false
  | p :: ps, c :: cs => lowEq p c && prefCI ps cs

/-- Case-sensitive "is this literal a prefix here". -/
def prefCS : List Char → List Char → Bool
  | [], _ => true
  | _ :: _, [] => false
  | p :: ps, c :: cs => (p == c) && prefCS ps cs

/-- Consume a literal case-insensitively, returning the rest. -/
def litCI (pat cs : List Char) : Option (List Char) :=
  if prefCI pat cs then some (cs.drop pat.length) else none

/-- Consume a literal case-sensitively, returning the rest. -/
def litCS (pat cs : List Char) : Option (List Char) :=
  if prefCS pat cs then some (cs.drop pat.length) else none

/-- Greedy `\s*`. -/
def skipWs (cs : List Char) : List Char :=
  cs.dropWhile isSpaceCh

/-- Greedy `\s+` (at least one whitespace character). -/
def ws1 : List Char → Option (List Char)
  | [] => none
  | c :: cs => if isSpaceCh c then some (cs.dropWhile isSpaceCh) else none

/-- Greedy `(\d+)`: the captured digit run and the rest. -/
def digits1 (cs : List Char) : Option (List Char × List Char) :=
  let ds := cs.takeWhile isDigitCh
  if ds.isEmpty then none else some (ds, cs.dropWhile isDigitCh)

/-- The character class `[×x]` under `re.IGNORECASE`. -/
def timesCh (c : Char) : Bool :=
  c.toLower == 'x' || c == '×'

/-- Numeric value of a digit run. -/
def natOfDigits (ds : List Char) : Nat :=
  ds.foldl (fun a c => a * 10 + (c.toNat - 48)) 0

/-- After an initial digit, consume `(digit | _ digit)*` as Python integer
    literals allow; returns (digits seen, rest). -/
def digRunMore : List Char → (List Char × List Char)
  | [] => ([], [])
  | c :: rest =>
    if isDigitCh c then
      let p := digRunMore rest
      (c :: p.1, p.2)
    else if c == '_' then
      match rest with
      | d :: rest2 =>
        if isDigitCh d then
          let p := digRunMore rest2
          (d :: p.1, p.2)
        else ([], c :: rest)
      | [] => ([], [c])
    else ([], c :: rest)

/-- A full Python digit run `digit (digit | _ digit)*`. -/
def digRun : List Char → Option (List Char × List Char)
  | [] => none
  | c :: rest =>
    if isDigitCh c then
      let p := digRunMore rest
      some (c :: p.1, p.2)
    else none

/-- Strip leading and trailing whitespace (Python `str.strip`). -/
def trimWs (cs : List Char) : List Char :=
  ((cs.dropWhile isSpaceCh).reverse.dropWhile isSpaceCh).reverse

/-- Python `str.strip` on strings. -/
def pyStrip (s : String) : String :=
  String.mk (trimWs s.toList)

/-- Python `str.lower` on strings (ASCII). -/
def lowerStr (s : String) : String :=
  String.mk (s.toList.map Char.toLower)

/-- Python `int(s)` on a string: optional surrounding whitespace, optional
    sign, a digit run (underscores permitted between digits); `none` models
    the `ValueError` the source catches. -/
def pyInt? (s : String) : Option Int :=
  let core : Int → List Char → Option Int := fun sign u =>
    match digRun u with
    | some (ds, []) => some (sign * (natOfDigits ds : Int))
    | _ => none
  match trimWs s.toList with
  | '+' :: u => core 1 u
  | '-' :: u => core (-1) u
  | u => core 1 u

/-!  Regular-expression search.

A match result delivers only what `_extract_count` inspects: whether the
pattern matched, and the text of capture group 1 when the pattern has a
group that participated with non-`None` value (`none` models both a
pattern without groups and a group that did not participate). -/

/-- Group 1 of a successful match (`none`: no capture delivered). -/
abbrev MatchRes := Option String

/-- A matcher applied at one position: previous character (for `\b`) and the
    remaining text. -/
abbrev MatcherAt := Option Char → List Char → Option MatchRes

/-- `re.search`: try the matcher at every position, leftmost first. -/
def searchAux (m : MatcherAt) : Option Char → List Char → Option MatchRes
  | prev, cs =>
    match m prev cs with
    | some r => some r
    | none =>
      match cs with
      | [] => none
      | c :: rest => searchAux m (some c) rest

/-- A compiled pattern: the whole-string search function. -/
abbrev Pattern := String → Option MatchRes

/-- Package a positional matcher as a search over the whole scope. -/
def patOf (m : MatcherAt) : Pattern := fun s => searchAux m none s.toList

/-- Words of a literal tail joined by `\s+`, case-insensitively. -/
def litWordsCI : List (List Char) → List Char → Option (List Char)
  | [], cs => some cs
  | w :: ws, cs =>
    match litCI w cs with
    | none => none
    | some r =>
      match ws with
      | [] => some r
      | _ :: _ =>
        match ws1 r with
        | none => none
        | some r2 => litWordsCI ws r2

/-- Matcher for `(\d+)\s*[×x]\s*W1\s+W2\s+...` (the shared shape of the
    multiplier accolade patterns). -/
def numTimesAt (words : List (List Char)) : MatcherAt := fun _ cs =>
  match digits1 cs with
  | none => none
  | some (ds, r1) =>
    match r1.dropWhile isSpaceCh with
    | [] => none
    | c :: r2 =>
      if timesCh c then
        match litWordsCI words (r2.dropWhile isSpaceCh) with
        | none => none
        | some _ => some (some (String.mk ds))
      else none

/-- Matcher for `(\d+)\s+All-Star`. -/
def allStar3At : MatcherAt := fun _ cs =>
  match digits1 cs with
  | none => none
  | some (ds, r1) =>
    match ws1 r1 with
    | none => none
    | some r2 =>
      match litCI (("All-Star").toList) r2 with
      | none => none
      | some _ => some (some (String.mk ds))

/-- The tail `\s*[×x]\s*Def\.\s*POY` shared by the two-digit DPOY form. -/
def dpoyTail (cs : List Char) : Bool :=
  match cs.dropWhile isSpaceCh with
  | [] => false
  | c :: r =>
    timesCh c &&
      (match litCI (("Def.").toList) (r.dropWhile isSpaceCh) with
       | some r2 => (litCI (("POY").toList) (r2.dropWhile isSpaceCh)).isSome
       | none => false)

/-- Matcher for `(\d{1,2})\s*[×x]\s*Def\.\s*POY` (greedy: two digits tried
    before one). -/
def dpoy1At : MatcherAt := fun _ cs =>
  match cs with
  | [] => none
  | a :: rest =>
    if isDigitCh a then
      match rest with
      | [] => none
      | b :: r2 =>
        if isDigitCh b && dpoyTail r2 then some (some (String.mk [a, b]))
        else if dpoyTail rest then some (some (String.mk [a]))
        else none
    else none

/-- `\b` to the left of a word character. -/
def wordBoundaryOk (prev : Option Char) : Bool :=
  match prev with
  | none => true
  | some c => !isWordCh c

/-- `\b` to the right of a word character. -/
def endBoundaryOk : List Char → Bool
  | [] => true
  | c :: _ => !isWordCh c

/-- Matcher for `\b\d{4}-\d{2}\s*Def\.\s*POY\b` (no capture group). -/
def dpoy2At : MatcherAt := fun prev cs =>
  if !wordBoundaryOk prev then none
  else
    match cs with
    | a :: b :: c :: d :: e :: f :: g :: r =>
      if isDigitCh a && isDigitCh b && isDigitCh c && isDigitCh d
          && e == '-' && isDigitCh f && isDigitCh g then
        match litCI (("Def.").toList) (r.dropWhile isSpaceCh) with
        | none => none
        | some r2 =>
          match litCI (("POY").toList) (r2.dropWhile isSpaceCh) with
          | none => none
          | some r3 => if endBoundaryOk r3 then some none else none
      else none
    | _ => none

/-- Matcher for `\bDef\.\s*POY\b` (no capture group). -/
def dpoy3At : MatcherAt := fun prev cs =>
  if !wordBoundaryOk prev then none
  else
    match litCI (("Def.").toList) cs with
    | none => none
    | some r =>
      match litCI (("POY").toList) (r.dropWhile isSpaceCh) with
      | none => none
      | some r2 => if endBoundaryOk r2 then some none else none

/-- `Scoring\s+(?:Champion|Champ|Leader)`. -/
def scoringStep (cs : List Char) : Bool :=
  match litCI (("Scoring").toList) cs with
  | none => false
  | some r =>
    match ws1 r with
    | none => false
    | some r2 =>
      (litCI (("Champion").toList) r2).isSome
        || (litCI (("Champ").toList) r2).isSome
        || (litCI (("Leader").toList) r2).isSome

/-- `(?:NBA\s+)?Scoring\s+(?:Champion|Champ|Leader)` (greedy option first,
    backtracking to the bare form). -/
def scoringCore (cs : List Char) : Bool :=
  (match litCI (("NBA").toList) cs with
   | some r =>
     match ws1 r with
     | some r2 => scoringStep r2
     | none => false
   | none => false)
  || scoringStep cs

/-- Matcher for `(?:(\d+)\s*[×x]\s*)?(?:NBA\s+)?Scoring\s+(?:Champion|Champ|Leader)`. -/
def scoringAt : MatcherAt := fun _ cs =>
  match digits1 cs with
  | some (ds, r1) =>
    match r1.dropWhile isSpaceCh with
    | c :: r2 =>
      if timesCh c && scoringCore (r2.dropWhile isSpaceCh) then
        some (some (String.mk ds))
      else if scoringCore cs then some none else none
    | [] => if scoringCore cs then some none else none
  | none => if scoringCore cs then some none else none

/-! The exact pattern lists the source passes to `_extract_count`. -/

def champPat : Pattern := patOf (numTimesAt [("NBA").toList, ("Champ").toList])

def mvpPat1 : Pattern := patOf (numTimesAt [("NBA").toList, ("MVP").toList])

def mvpPat2 : Pattern := patOf (numTimesAt [("MVP").toList])

def finalsMvpPat : Pattern := patOf (numTimesAt [("Finals").toList, ("MVP").toList])

def allStarPat1 : Pattern := patOf (numTimesAt [("All").toList, ("Star").toList])

def allStarPat2 : Pattern := patOf (numTimesAt [("All-Star").toList])

def allStarPat3 : Pattern := patOf allStar3At

def allNbaPat : Pattern := patOf (numTimesAt [("All-NBA").toList])

def allDefPat : Pattern := patOf (numTimesAt [("All-Defensive").toList])

def dpoyPat1 : Pattern := patOf dpoy1At

def dpoyPat2 : Pattern := patOf dpoy2At

def dpoyPat3 : Pattern := patOf dpoy3At

def scoringPat : Pattern := patOf scoringAt

def dpoyPatterns : List Pattern := [dpoyPat1, dpoyPat2, dpoyPat3]

/-- `_extract_count` (lines 464-484 of the source): try the patterns in
    order; on the first match, use capture group 1 when it is a non-empty
    string whose integer value lies in `[1, maxVal]`, otherwise 1; if no
    pattern matches at all, 0. -/
def extractCount (htmlText : String) (patterns : List Pattern) (maxVal : Nat) : Nat :=
  match patterns with
  | [] => 0
  | p :: rest =>
    match p htmlText with
    | none => extractCount htmlText rest maxVal
    | some g =>
      match g with
      | some s =>
        if s ≠ "" then
          match pyInt? s with
          | some v => if 1 ≤ v ∧ v ≤ (maxVal : Int) then v.toNat else 1
          | none => 1
        else 1
      | none => 1

/-! Comment unmasking: `table_html.replace(...)` on lines 186-187. -/

/-- Does `pat` occur as a substring? -/
def hasSub (pat : List Char) : List Char → Bool
  | [] => pat.isEmpty
  | c :: rest => pat.isPrefixOf (c :: rest) || hasSub pat rest

/-- One left-to-right pass of Python `str.replace(pat, "")`, fuelled so the
    recursion is structural; fuel at least the string length is exact. -/
def removeAllF (pat : List Char) : Nat → List Char → List Char
  | 0, s => s
  | _ + 1, [] => []
  | f + 1, c :: rest =>
    if !pat.isEmpty && pat.isPrefixOf (c :: rest) then
      removeAllF pat f ((c :: rest).drop pat.length)
    else
      c :: removeAllF pat f rest

/-- Python `s.replace(pat, "")` for non-empty `pat`. -/
def removeAll (pat s : List Char) : List Char :=
  removeAllF pat s.length s

/-- The comment-open token `<!--`. -/
def openTok : List Char := ("<!--").toList

/-- The comment-close token `-->`. -/
def closeTok : List Char := ("-->").toList

/-- Lines 186-187: `table_html.replace(<!--, ).replace(-->, )`. -/
def unmask (s : List Char) : List Char :=
  removeAll closeTok (removeAll openTok s)

/-- String-level comment unmasking. -/
def unmaskStr (s : String) : String :=
  String.mk (unmask s.toList)

/-! `_extract_table_surgically` (lines 131-194). -/

/-- Python `str.find`: index of the first occurrence of `pat`, if any. -/
def findSub (pat : List Char) : List Char → Option Nat
  | [] => if pat.isEmpty then some 0 else none
  | c :: rest =>
    if pat.isPrefixOf (c :: rest) then some 0
    else (findSub pat rest).map (· + 1)

/-- `html_text[p:p+6].lower() == <table` at absolute position `p`. -/
def openTagAt (s : List Char) (p : Nat) : Bool :=
  ((s.drop p).take 6).map Char.toLower == ("<table").toList

/-- `html_text[p:p+8].lower() == </table>` at absolute position `p`. -/
def closeTagAt (s : List Char) (p : Nat) : Bool :=
  ((s.drop p).take 8).map Char.toLower == ("</table>").toList

/-- The backward walk of lines 151-162: test positions `t, t-1, ...` while
    they exceed `limit`; the loop never tests position `limit` itself and
    reports failure when it reaches it. -/
def backScan (s : List Char) (limit : Nat) : Nat → Option Nat
  | 0 => none
  | t + 1 =>
    if limit < t + 1 then
      if openTagAt s (t + 1) then some (t + 1) else backScan s limit t
    else none

/-- The forward walk of lines 166-179, as structural recursion on the
    distance `d` still allowed before `limit`; on a hit at `t` the source
    sets `table_end = t + 8` and still rejects it when `t + 8 ≥ limit`. -/
def fwdScanD (s : List Char) (limit : Nat) : Nat → Nat → Option Nat
  | 0, _ => none
  | d + 1, t =>
    if closeTagAt s t then
      if limit ≤ t + 8 then none else some (t + 8)
    else fwdScanD s limit d (t + 1)

/-- The forward walk starting at `t` bounded by `limit`. -/
def fwdScan (s : List Char) (limit t : Nat) : Option Nat :=
  fwdScanD s limit (limit - t) t

/-- A single-quote character, for the alternate anchor quoting convention. -/
def sq : String := String.mk [Char.ofNat 39]

/-- Lines 137-147: the anchor search, double-quote convention first. -/
def anchorPos (s : List Char) (ident : String) : Option Nat :=
  match findSub (("data-stat=\"" ++ ident ++ "\"").toList) s with
  | some i => some i
  | none => findSub (("data-stat=" ++ sq ++ ident ++ sq).toList) s

/-- `_extract_table_surgically`: locate the anchor, walk back at most 50000
    characters to `<table`, walk forward at most 100000 characters past
    `</table>`, return that slice with comment delimiters removed. -/
def extractTableSurgically (htmlText : String) (ident : String) : Option String :=
  match anchorPos htmlText.toList ident with
  | none => none
  | some a =>
    match backScan htmlText.toList (a - 50000) a with
    | none => none
    | some p =>
      match fwdScan htmlText.toList (min htmlText.toList.length (a + 100000)) a with
      | none => none
      | some e => some (String.mk (unmask ((htmlText.toList.drop p).take (e - p))))

/-! `_extract_bling_section` (lines 196-203): the leftmost match of
    `<ul[^>]*id="bling"[^>]*>.*?</ul>` under `IGNORECASE | DOTALL`. -/

/-- Case-insensitive first-occurrence search. -/
def findSubCI (pat : List Char) : List Char → Option Nat
  | [] => if pat.isEmpty then some 0 else none
  | c :: rest =>
    if prefCI pat (c :: rest) then some 0
    else (findSubCI pat rest).map (· + 1)

/-- Case-insensitive substring test. -/
def hasSubCI (pat : List Char) (s : List Char) : Bool :=
  (findSubCI pat s).isSome

/-- Length of a match of `<ul[^>]*id="bling"[^>]*>` at this position: the
    closing `>` is forced to be the first `>` after `<ul`, and `id="bling"`
    must occur in the run of non-`>` characters between them. -/
def blingOpenLen (cs : List Char) : Option Nat :=
  if prefCI (("<ul").toList) cs then
    let seg := (cs.drop 3).takeWhile (fun c => c ≠ '>')
    if (cs.drop 3).length == seg.length then none
    else if hasSubCI (("id=\"bling\"").toList) seg then some (3 + seg.length + 1)
    else none
  else none

/-- Length of a full match `<ul[^>]*id="bling"[^>]*>.*?</ul>` at this
    position (`.*?` lazily reaching the first `</ul>`). -/
def blingAtLen (cs : List Char) : Option Nat :=
  match blingOpenLen cs with
  | none => none
  | some n =>
    match findSubCI (("</ul>").toList) (cs.drop n) with
    | none => none
    | some k => some (n + k + 5)

/-- Leftmost-position scan for the bling block; returns `group(0)`. -/
def blingScan : List Char → Option (List Char)
  | [] => none
  | c :: r =>
    match blingAtLen (c :: r) with
    | some n => some ((c :: r).take n)
    | none => blingScan r

/-- `_extract_bling_section`. -/
def extractBlingSection (htmlText : String) : Option String :=
  (blingScan htmlText.toList).map String.mk

/-! `_count_accolades` (lines 486-594). -/

/-- The eight-entry accolade count map the source initialises to zeros and
    then fills. -/
structure Accolades where
  championships : Nat
  mvp_awards : Nat
  finals_mvp_awards : Nat
  scoring_titles : Nat
  all_star_selections : Nat
  all_nba_selections : Nat
  all_defensive_selections : Nat
  dpoy_awards : Nat
deriving DecidableEq

/-- `_count_accolades`: every category except DPOY is resolved against the
    full document text; DPOY is resolved only against the extracted bling
    block (empty string when absent), with plausible maximum 10. -/
def countAccolades (htmlText : String) : Accolades :=
  { championships := extractCount htmlText [champPat] 50
    mvp_awards := extractCount htmlText [mvpPat1, mvpPat2] 50
    finals_mvp_awards := extractCount htmlText [finalsMvpPat] 50
    scoring_titles := extractCount htmlText [scoringPat] 50
    all_star_selections := extractCount htmlText [allStarPat1, allStarPat2, allStarPat3] 50
    all_nba_selections := extractCount htmlText [allNbaPat] 50
    all_defensive_selections := extractCount htmlText [allDefPat] 50
    dpoy_awards :=
      extractCount ((extractBlingSection htmlText).getD "") dpoyPatterns 10 }

/-! Helper lemmas about the count resolver and comment unmasking. -/

/-- If none of the patterns matches the scope, the resolver yields 0. -/
theorem extractCount_of_none (htmlText : String) (patterns : List Pattern) (maxVal : Nat)
    (h : ∀ p ∈ patterns, p htmlText = none) :
    extractCount htmlText patterns maxVal = 0 := by
  induction patterns with
  | nil => rfl
  | cons p rest ih =>
    have hp : p htmlText = none := h p (List.mem_cons_self p rest)
    have hr : ∀ q ∈ rest, q htmlText = none := fun q hq => h q (List.mem_cons_of_mem p hq)
    simp [extractCount, hp, ih hr]

/-- Leading non-matching patterns are skipped. -/
theorem extractCount_append_of_none (htmlText : String) (ps₁ ps₂ : List Pattern) (maxVal : Nat)
    (h : ∀ p ∈ ps₁, p htmlText = none) :
    extractCount htmlText (ps₁ ++ ps₂) maxVal = extractCount htmlText ps₂ maxVal := by
  induction ps₁ with
  | nil => rfl
  | cons p rest ih =>
    have hp : p htmlText = none := h p (List.mem_cons_self p rest)
    have hr : ∀ q ∈ rest, q htmlText = none := fun q hq => h q (List.mem_cons_of_mem p hq)
    simp [extractCount, hp, ih hr]

/-- A pass of `replace(pat, "")` leaves a string without occurrences of
    `pat` unchanged, whatever the fuel. -/
theorem removeAllF_of_not_has (pat : List Char) (f : Nat) (s : List Char)
    (h : hasSub pat s = false) : removeAllF pat f s = s := by
  induction f generalizing s with
  | zero => rfl
  | succ f ih =>
    cases s with
    | nil => rfl
    | cons c rest =>
      have h2 := h
      unfold hasSub at h2
      rw [Bool.or_eq_false_iff] at h2
      unfold removeAllF
      rw [h2.1]
      simp only [Bool.and_false]
      rw [if_neg (by simp)]
      rw [ih rest h2.2]

/-- `replace(pat, "")` fixes strings without an occurrence of `pat`. -/
theorem removeAll_of_not_has (pat s : List Char) (h : hasSub pat s = false) :
    removeAll pat s = s :=
  removeAllF_of_not_has pat s.length s h

/-! Claim C1. -/

/-- C1 counterexample: with the source's MVP pattern list and the default
    plausible maximum 50, the scope "99x NBA MVP" is matched first by the
    NBA-MVP pattern with capture 99 > 50; no later pattern matches, so the
    claim as stated predicts 0, but `_extract_count` returns 1: the
    out-of-range capture does not fall through to the next pattern. -/
theorem extract_count_out_of_range_counterexample :
    mvpPat1 ("99x NBA MVP") = some (some ("99")) ∧
    mvpPat2 ("99x NBA MVP") = none ∧
    pyInt? ("99") = some 99 ∧
    ¬ ((99 : Int) ≤ (50 : Int)) ∧
    extractCount ("99x NBA MVP") [mvpPat1, mvpPat2] 50 = 1 ∧
    extractCount ("99x NBA MVP") [mvpPat1, mvpPat2] 50 ≠ 0 := by
  decide

/-- C1 (amended): if the first matching pattern carries a captured integer
    group whose value is out of the range `[1, max_val]`, the capture is
    rejected as a count but the pattern still counts as matched: resolution
    stops there and yields 1 (implied single occurrence); it does not fall
    through to later patterns, and 0 arises only when no pattern matches. -/
theorem extract_count_out_of_range_yields_one
    (scope : String) (ps₁ : List Pattern) (p : Pattern) (ps₂ : List Pattern)
    (maxVal : Nat) (s : String) (v : Int)
    (h₁ : ∀ q ∈ ps₁, q scope = none) (h₂ : p scope = some (some s)) (h₃ : s ≠ "")
    (h₄ : pyInt? s = some v) (h₅ : ¬ (1 ≤ v ∧ v ≤ (maxVal : Int))) :
    extractCount scope (ps₁ ++ p :: ps₂) maxVal = 1 := by
  rw [extractCount_append_of_none scope ps₁ (p :: ps₂) maxVal h₁]
  simp [extractCount, h₂, h₃, h₄, h₅]

/-- Witness for the amended C1 at the concrete out-of-range scope. -/
theorem extract_count_out_of_range_yields_one_witness :
    extractCount ("99x NBA MVP") [mvpPat1, mvpPat2] 50 = 1 :=
  extract_count_out_of_range_yields_one ("99x NBA MVP") [] mvpPat1 [mvpPat2] 50 ("99") 99
    (by intro q hq; simp at hq)
    (by decide) (by decide) (by decide) (by decide)

/-! Claim C3. -/

/-- C3: the count resolver tries patterns in order and the first match
    decides: a first-matching pattern whose capture is an integer `n` with
    `1 ≤ n ≤ max_val` yields `n`; a first-matching pattern that delivers no
    capture yields exactly 1; and if no pattern matches, the result is 0. -/
theorem extract_count_first_match_resolution :
    (∀ (scope : String) (ps₁ : List Pattern) (p : Pattern) (ps₂ : List Pattern)
        (maxVal : Nat) (s : String) (n : Nat),
        (∀ q ∈ ps₁, q scope = none) → p scope = some (some s) → s ≠ "" →
        pyInt? s = some (n : Int) → 1 ≤ n → n ≤ maxVal →
        extractCount scope (ps₁ ++ p :: ps₂) maxVal = n) ∧
    (∀ (scope : String) (ps₁ : List Pattern) (p : Pattern) (ps₂ : List Pattern)
        (maxVal : Nat),
        (∀ q ∈ ps₁, q scope = none) → p scope = some none →
        extractCount scope (ps₁ ++ p :: ps₂) maxVal = 1) ∧
    (∀ (scope : String) (ps : List Pattern) (maxVal : Nat),
        (∀ q ∈ ps, q scope = none) → extractCount scope ps maxVal = 0) := by
  refine ⟨?_, ?_, ?_⟩
  · intro scope ps₁ p ps₂ maxVal s n h₁ h₂ h₃ h₄ h₅ h₆
    rw [extractCount_append_of_none scope ps₁ (p :: ps₂) maxVal h₁]
    have hin : (1 : Int) ≤ (n : Int) ∧ (n : Int) ≤ (maxVal : Int) := by
      constructor <;> exact_mod_cast ‹_›
    simp [extractCount, h₂, h₃, h₄, hin]
  · intro scope ps₁ p ps₂ maxVal h₁ h₂
    rw [extractCount_append_of_none scope ps₁ (p :: ps₂) maxVal h₁]
    simp [extractCount, h₂]
  · intro scope ps maxVal h
    exact extractCount_of_none scope ps maxVal h

/-- Witness for C3 on the spec's own examples: "4x MVP" resolves to 4, a
    bare "Def. POY" against the no-multiplier pattern resolves to 1, and a
    scope matching nothing resolves to 0. -/
theorem extract_count_first_match_resolution_witness :
    extractCount ("4x MVP") [mvpPat1, mvpPat2] 50 = 4 ∧
    extractCount ("Def. POY") dpoyPatterns 10 = 1 ∧
    extractCount ("zzz") [mvpPat1, mvpPat2] 50 = 0 := by
  refine ⟨?_, ?_, ?_⟩
  · exact extract_count_first_match_resolution.1 ("4x MVP") [mvpPat1] mvpPat2 [] 50 ("4") 4
      (by intro q hq; rw [List.mem_singleton] at hq; subst hq; decide)
      (by decide) (by decide) (by decide) (by decide) (by decide)
  · exact extract_count_first_match_resolution.2.1 ("Def. POY") [dpoyPat1, dpoyPat2] dpoyPat3 [] 10
      (by intro q hq; rw [List.mem_cons, List.mem_singleton] at hq
          rcases hq with rfl | rfl <;> decide)
      (by decide)
  · exact extract_count_first_match_resolution.2.2 ("zzz") [mvpPat1, mvpPat2] 50
      (by intro q hq; rw [List.mem_cons, List.mem_singleton] at hq
          rcases hq with rfl | rfl <;> decide)

/-! Claim C2. -/

/-- C2: the DPOY category is resolved only against the extracted bling
    sub-region (empty string when no bling block exists); whenever no DPOY
    pattern matches that sub-region — in particular when the "Def. POY"
    forms occur only outside the bling block — the resolved count is 0. -/
theorem dpoy_scoped_to_bling (htmlText : String)
    (h : ∀ q ∈ dpoyPatterns, q ((extractBlingSection htmlText).getD "") = none) :
    (countAccolades htmlText).dpoy_awards =
      extractCount ((extractBlingSection htmlText).getD "") dpoyPatterns 10 ∧
    (countAccolades htmlText).dpoy_awards = 0 := by
  constructor
  · rfl
  · exact extractCount_of_none _ dpoyPatterns 10 h

/-- Witness for C2: a document whose only "Def. POY" text is a navigation
    link outside the bling block. The DPOY pattern does match the full
    document, the bling block is extracted, and the resolved count is 0. -/
theorem dpoy_scoped_to_bling_witness :
    dpoyPat3 ("<a href=\"/awards/dpoy.html\">Def. POY</a><ul id=\"bling\"><li>5x All-NBA</li></ul>")
      = some none ∧
    extractBlingSection
        ("<a href=\"/awards/dpoy.html\">Def. POY</a><ul id=\"bling\"><li>5x All-NBA</li></ul>")
      = some ("<ul id=\"bling\"><li>5x All-NBA</li></ul>") ∧
    (countAccolades
        ("<a href=\"/awards/dpoy.html\">Def. POY</a><ul id=\"bling\"><li>5x All-NBA</li></ul>")).dpoy_awards
      = 0 := by
  refine ⟨by decide, by decide, ?_⟩
  exact (dpoy_scoped_to_bling
    ("<a href=\"/awards/dpoy.html\">Def. POY</a><ul id=\"bling\"><li>5x All-NBA</li></ul>")
    (by intro q hq
        rw [dpoyPatterns, List.mem_cons, List.mem_cons, List.mem_singleton] at hq
        rcases hq with rfl | rfl | rfl <;> decide)).2

/-! Claim C4. -/

/-- C4 counterexample: comment unmasking is not idempotent on every string.
    Removing the `<!--` occurrences of `<!<!----` splices a fresh `<!--`
    together, so a second application removes more. -/
theorem unmask_not_idempotent_counterexample :
    unmaskStr (unmaskStr ("<!<!----")) ≠ unmaskStr ("<!<!----") ∧
    unmaskStr ("<!<!----") = ("<!--") ∧
    unmaskStr (unmaskStr ("<!<!----")) = ("") := by
  decide

/-- C4 (amended): comment unmasking is idempotent on every input whose
    once-unmasked text contains no `<!--` and no `-->` occurrence (removal
    can otherwise splice new delimiter tokens together, as in `<!<!----`).
    On the document family targeted, one application removes every
    delimiter, and a second application is then the identity. -/
theorem unmask_idempotent_of_clean (s : String)
    (h₁ : hasSub openTok (unmask s.toList) = false)
    (h₂ : hasSub closeTok (unmask s.toList) = false) :
    unmaskStr (unmaskStr s) = unmaskStr s := by
  show String.mk (unmask (String.mk (unmask s.toList)).toList) = String.mk (unmask s.toList)
  have htl : (String.mk (unmask s.toList)).toList = unmask s.toList := rfl
  rw [htl]
  unfold unmask
  rw [removeAll_of_not_has openTok _ (by unfold unmask at h₁; exact h₁)]
  rw [removeAll_of_not_has closeTok _ (by unfold unmask at h₂; exact h₂)]

/-- Witness for the amended C4 on a comment-wrapped fragment. -/
theorem unmask_idempotent_of_clean_witness :
    hasSub openTok (unmask ("a<!--b-->c").toList) = false ∧
    hasSub closeTok (unmask ("a<!--b-->c").toList) = false ∧
    unmaskStr (unmaskStr ("a<!--b-->c")) = unmaskStr ("a<!--b-->c") := by
  refine ⟨by decide, by decide, ?_⟩
  exact unmask_idempotent_of_clean ("a<!--b-->c") (by decide) (by decide)

/-! Lemmas about the bounded scans of the region locator. -/

/-- The backward walk finds the nearest open marker strictly above the
    limit. -/
theorem backScan_found (s : List Char) (limit p : Nat) :
    ∀ a, p ≤ a → limit < p → openTagAt s p = true →
      (∀ t, p < t → t ≤ a → openTagAt s t = false) →
      backScan s limit a = some p := by
  intro a
  induction a with
  | zero =>
    intro h1 h2 _ _
    have hp0 : p = 0 := Nat.le_zero.mp h1
    subst hp0
    exact absurd h2 (Nat.not_lt_zero limit)
  | succ t ih =>
    intro h1 h2 h3 h4
    by_cases hpa : p = t + 1
    · subst hpa
      unfold backScan
      rw [if_pos h2, h3]
      simp
    · have hpt : p ≤ t := by omega
      have hopen : openTagAt s (t + 1) = false := h4 (t + 1) (by omega) (le_refl _)
      unfold backScan
      rw [if_pos (by omega : limit < t + 1), hopen]
      simp only [Bool.false_eq_true, if_false]
      exact ih hpt h2 h3 (fun u hu1 hu2 => h4 u hu1 (Nat.le_succ_of_le hu2))

/-- The backward walk fails when no open marker sits strictly above the
    limit and at or below the start. -/
theorem backScan_none (s : List Char) (limit : Nat) :
    ∀ a, (∀ t, limit < t → t ≤ a → openTagAt s t = false) →
      backScan s limit a = none := by
  intro a
  induction a with
  | zero => intro _; rfl
  | succ t ih =>
    intro h
    unfold backScan
    by_cases hl : limit < t + 1
    · rw [if_pos hl, h (t + 1) hl (le_refl _)]
      simp only [Bool.false_eq_true, if_false]
      exact ih (fun u hu1 hu2 => h u hu1 (Nat.le_succ_of_le hu2))
    · rw [if_neg hl]

/-- The forward walk, run with exact fuel, finds the first close marker
    and accepts it when its end stays strictly below the limit. -/
theorem fwdScanD_found (s : List Char) (limit q : Nat) :
    ∀ d t, t ≤ q → q < t + d → closeTagAt s q = true →
      (∀ u, t ≤ u → u < q → closeTagAt s u = false) →
      fwdScanD s limit d t = if limit ≤ q + 8 then none else some (q + 8) := by
  intro d
  induction d with
  | zero => intro t h1 h2 _ _; omega
  | succ d ih =>
    intro t h1 h2 h3 h4
    by_cases htq : t = q
    · subst htq
      unfold fwdScanD
      rw [h3]
      simp
    · have hcl : closeTagAt s t = false := h4 t (le_refl _) (by omega)
      unfold fwdScanD
      rw [hcl]
      simp only [Bool.false_eq_true, if_false]
      exact ih (t + 1) (by omega) (by omega) h3 (fun u hu1 hu2 => h4 u (by omega) hu2)

/-- The forward walk fails when no close marker starts in the scanned
    range. -/
theorem fwdScanD_none (s : List Char) (limit : Nat) :
    ∀ d t, t + d ≤ limit → (∀ u, t ≤ u → u < limit → closeTagAt s u = false) →
      fwdScanD s limit d t = none := by
  intro d
  induction d with
  | zero => intro t _ _; rfl
  | succ d ih =>
    intro t hd h
    have hcl : closeTagAt s t = false := h t (le_refl _) (by omega)
    unfold fwdScanD
    rw [hcl]
    simp only [Bool.false_eq_true, if_false]
    exact ih (t + 1) (by omega) (fun u hu1 hu2 => h u (by omega) hu2)

/-- A found first occurrence lies within the string. -/
theorem findSub_le_length (pat : List Char) :
    ∀ s i, findSub pat s = some i → i ≤ s.length := by
  intro s
  induction s with
  | nil =>
    intro i h
    unfold findSub at h
    by_cases hp : pat.isEmpty
    · rw [if_pos hp] at h
      cases h
      exact le_refl 0
    · rw [if_neg hp] at h
      cases h
  | cons c rest ih =>
    intro i h
    unfold findSub at h
    by_cases hp : pat.isPrefixOf (c :: rest)
    · rw [if_pos hp] at h
      cases h
      exact Nat.zero_le _
    · rw [if_neg hp] at h
      rcases Option.map_eq_some'.mp h with ⟨j, hj, rfl⟩
      exact Nat.succ_le_succ (ih j hj)

/-- The anchor offset lies within the document. -/
theorem anchorPos_le_length (s : List Char) (ident : String) (a : Nat)
    (h : anchorPos s ident = some a) : a ≤ s.length := by
  unfold anchorPos at h
  cases hf : findSub (("data-stat=\"" ++ ident ++ "\"").toList) s with
  | some i =>
    rw [hf] at h
    cases h
    exact findSub_le_length _ s a hf
  | none =>
    rw [hf] at h
    exact findSub_le_length _ s a h

/-! Claim C8. -/

/-- C8 counterexample: in `z<table data-stat="g"></table>` the open marker
    sits at position 1 (7 characters before the anchor, well within the
    50000 bound) and the close marker occupies positions 22-29, entirely
    within the 100000 forward bound — yet the locator reports not-found,
    because the close marker ends exactly at the scan limit
    `min(len, anchor + 100000) = len` and the source rejects
    `table_end >= search_limit` even after a hit. -/
theorem extract_table_surgically_counterexample :
    anchorPos ("z<table data-stat=\"g\"></table>").toList ("g") = some 8 ∧
    openTagAt ("z<table data-stat=\"g\"></table>").toList 1 = true ∧
    8 - 50000 < 1 ∧
    closeTagAt ("z<table data-stat=\"g\"></table>").toList 22 = true ∧
    22 + 8 ≤ 8 + 100000 ∧
    22 + 8 ≤ ("z<table data-stat=\"g\"></table>").length ∧
    extractTableSurgically ("z<table data-stat=\"g\"></table>") ("g") = none := by
  decide

/-- C8 (amended): given the anchor at offset `a`, if the nearest open
    marker before the anchor begins strictly above `a - 50000`, and the
    first close marker at or after the anchor ends strictly below
    `min(len, a + 100000)`, the locator returns the slice from the open
    marker through the end of the close marker with comment delimiters
    stripped; it reports not-found when no open marker begins strictly
    above the backward limit, or no close marker begins below the forward
    limit (markers sitting exactly at a limit, or a close marker ending at
    or past it, are not found). -/
theorem extract_table_surgically_bounds (htmlText ident : String) (a : Nat)
    (hA : anchorPos htmlText.toList ident = some a) :
    (∀ p q, a - 50000 < p → p ≤ a → openTagAt htmlText.toList p = true →
      (∀ t, p < t → t ≤ a → openTagAt htmlText.toList t = false) →
      a ≤ q → closeTagAt htmlText.toList q = true →
      q + 8 < min htmlText.toList.length (a + 100000) →
      (∀ u, a ≤ u → u < q → closeTagAt htmlText.toList u = false) →
      extractTableSurgically htmlText ident =
        some (String.mk (unmask ((htmlText.toList.drop p).take (q + 8 - p))))) ∧
    ((∀ t, a - 50000 < t → t ≤ a → openTagAt htmlText.toList t = false) →
      extractTableSurgically htmlText ident = none) ∧
    ((∀ u, a ≤ u → u < min htmlText.toList.length (a + 100000) →
        closeTagAt htmlText.toList u = false) →
      extractTableSurgically htmlText ident = none) := by
  have ha : a ≤ htmlText.toList.length := anchorPos_le_length _ _ _ hA
  refine ⟨?_, ?_, ?_⟩
  · intro p q hp1 hp2 hp3 hp4 hq1 hq2 hq3 hq4
    have hback := backScan_found htmlText.toList (a - 50000) p a hp2 hp1 hp3 hp4
    have hfwd := fwdScanD_found htmlText.toList
      (min htmlText.toList.length (a + 100000)) q
      (min htmlText.toList.length (a + 100000) - a) a hq1 (by omega) hq2 hq4
    rw [if_neg (by omega)] at hfwd
    have hfwd2 : fwdScan htmlText.toList (min htmlText.toList.length (a + 100000)) a
        = some (q + 8) := hfwd
    simp only [extractTableSurgically, hA, hback, hfwd2]
  · intro h
    have hback := backScan_none htmlText.toList (a - 50000) a h
    simp only [extractTableSurgically, hA, hback]
  · intro h
    have hfwd2 : fwdScan htmlText.toList (min htmlText.toList.length (a + 100000)) a
        = none :=
      fwdScanD_none htmlText.toList (min htmlText.toList.length (a + 100000))
        (min htmlText.toList.length (a + 100000) - a) a (by omega) h
    cases hb : backScan htmlText.toList (a - 50000) a with
    | none => simp only [extractTableSurgically, hA, hb]
    | some p => simp only [extractTableSurgically, hA, hb, hfwd2]

/-- Witness for the amended C8: with one trailing character after the
    close marker the same document is located and returned, comment
    delimiters stripped. -/
theorem extract_table_surgically_bounds_witness :
    extractTableSurgically ("z<table data-stat=\"g\"></table> ") ("g") =
      some ("<table data-stat=\"g\"></table>") := by
  have h := (extract_table_surgically_bounds ("z<table data-stat=\"g\"></table> ") ("g") 8
    (by decide)).1 1 22
    (by decide) (by decide) (by decide)
    (by intro t h1 h2; interval_cases t <;> decide)
    (by decide) (by decide) (by decide)
    (by intro u h1 h2; interval_cases u <;> decide)
  rw [h]
  decide

/-!  The parsed-region data model.

BeautifulSoup's HTML parsing is external to the repository; it is abstracted
as a function `soupParse : String → Option Table` (the composition of
`BeautifulSoup(table_html)` and `soup.find("table")`, with `none` for "no
valid table").  A `Row` carries its cells in document order plus its CSS
classes; a cell carries its tag kind, `data-stat` attribute and flattened
text. -/

inductive CellTag
  | th
  | td
deriving DecidableEq

structure Cell where
  tag : CellTag
  dataStat : Option String
  text : String
deriving DecidableEq

structure Row where
  cells : List Cell
  classes : List String
deriving DecidableEq

structure Table where
  thead : List Row
  tbody : List Row
  tfoot : List Row
deriving DecidableEq

/-- `row.get_text()`: the concatenated text of the row's cells. -/
def rowText (r : Row) : String :=
  String.join (r.cells.map Cell.text)

/-- Case-sensitive substring test on strings (Python `in`). -/
def hasSubStr (pat s : String) : Bool :=
  hasSub pat.toList s.toList

/-- `re.search(r"^\d+\s+Yrs", txt)`: anchored at the start. -/
def startsYrs (s : String) : Bool :=
  match digits1 s.toList with
  | none => false
  | some (_, r) =>
    match ws1 r with
    | none => false
    | some r2 => prefCS (("Yrs").toList) r2

/-- `row.find("td")` as a Boolean: the row has at least one data cell. -/
def hasTd (r : Row) : Bool :=
  r.cells.any (fun c => c.tag == CellTag.td)

/-- The per-game career-row test of lines 236-238: `"Career" in txt or
    re.search(r"^\d+\s+Yrs", txt)` — note: no data-cell requirement. -/
def isCareerRowPG (r : Row) : Bool :=
  hasSubStr ("Career") (pyStrip (rowText r)) || startsYrs (pyStrip (rowText r))

/-- The advanced-table career-row test of lines 359 and 372:
    `(re.search(r"^\d+\s+Yrs", row_text) or "Career" in row_text) and
    row.find("td")`. -/
def isCareerRowAdv (r : Row) : Bool :=
  (startsYrs (pyStrip (rowText r)) || hasSubStr ("Career") (pyStrip (rowText r))) && hasTd r

/-- Row selection in `_parse_career_stats` (lines 240-253): first matching
    row of the footer grouping, then of the body grouping. -/
def perGameCareerRow (t : Table) : Option Row :=
  match t.tfoot.find? isCareerRowPG with
  | some r => some r
  | none => t.tbody.find? isCareerRowPG

/-- Strategies 1 and 2 of `_parse_advanced_stats` (lines 352-375). -/
def advFootBodyRow (t : Table) : Option Row :=
  match t.tfoot.find? isCareerRowAdv with
  | some r => some r
  | none => t.tbody.find? isCareerRowAdv

/-- Strategy 3 (line 379): any row whose class attribute contains
    "career" case-insensitively, with no data-cell requirement. -/
def advClassRow (t : Table) : Option Row :=
  (t.thead ++ t.tbody ++ t.tfoot).find?
    (fun r => r.classes.any (fun cl => hasSubStr ("career") (lowerStr cl)))

/-- The full advanced-table row selection. -/
def advCareerRow (t : Table) : Option Row :=
  match advFootBodyRow t with
  | some r => some r
  | none => advClassRow t

/-! Claim C5. -/

/-- A footer row whose only cell is a header cell reading "Career". -/
def headerOnlyCareerRow : Row :=
  ⟨[⟨CellTag.th, some ("season"), ("Career")⟩], []⟩

/-- A table whose footer grouping holds only that header-only row. -/
def headerOnlyTable : Table :=
  ⟨[], [], [headerOnlyCareerRow]⟩

/-- C5 counterexample: the per-game (career) row selection has no
    data-cell requirement — its footer strategy returns a header-only row
    with no `td` cell, contradicting the claim for the per-game table. -/
theorem per_game_selector_header_only_counterexample :
    perGameCareerRow headerOnlyTable = some headerOnlyCareerRow ∧
    hasTd headerOnlyCareerRow = false := by
  decide

/-- C5 (amended): in the advanced-table selection, the footer-grouping and
    body-grouping strategies only return rows containing at least one data
    cell; the per-game selection imposes no such requirement and can return
    a header-only row. -/
theorem advanced_foot_body_row_has_td (t : Table) (r : Row)
    (h : advFootBodyRow t = some r) : hasTd r = true := by
  unfold advFootBodyRow at h
  cases hf : t.tfoot.find? isCareerRowAdv with
  | some r2 =>
    rw [hf] at h
    cases h
    have hp := List.find?_some hf
    unfold isCareerRowAdv at hp
    simp only [Bool.and_eq_true] at hp
    exact hp.2
  | none =>
    rw [hf] at h
    have hp := List.find?_some h
    unfold isCareerRowAdv at hp
    simp only [Bool.and_eq_true] at hp
    exact hp.2

/-- A footer row with both the header cell and a data cell. -/
def fullCareerRow : Row :=
  ⟨[⟨CellTag.th, some ("season"), ("Career")⟩, ⟨CellTag.td, some ("per"), ("27.9")⟩], []⟩

/-- Witness for the amended C5: on a footer holding an aggregate row with a
    data cell, the advanced selection returns it and it has a `td`. -/
theorem advanced_foot_body_row_has_td_witness :
    advFootBodyRow ⟨[], [], [fullCareerRow]⟩ = some fullCareerRow ∧
    hasTd fullCareerRow = true := by
  constructor
  · decide
  · exact advanced_foot_body_row_has_td ⟨[], [], [fullCareerRow]⟩ fullCareerRow (by decide)

/-!  Field extraction and typed assembly. -/

/-- A raw field value as the Python dicts carry it: the stat extractors
    produce strings, the accolade counter produces integers. -/
inductive RawVal
  | str (s : String)
  | nat (n : Nat)
deriving DecidableEq

/-- A stats dict: keys in insertion order, values possibly `None`. -/
abbrev FieldMap := List (String × Option RawVal)

/-- `_parse_table_cell` (lines 205-210): `None` in, `None` out; otherwise
    the stripped cell text, empty becoming `None`. -/
def parseTableCell : Option Cell → Option String
  | none => none
  | some c =>
    let t := pyStrip c.text
    if t = ("") then none else some t

/-- `row.find("th")`. -/
def findTh (r : Row) : Option Cell :=
  r.cells.find? (fun c => c.tag == CellTag.th)

/-- `row.find("td", &#123;"data-stat": key&#125;)`-style lookup. -/
def findTdStat (r : Row) (key : String) : Option Cell :=
  r.cells.find? (fun c => c.tag == CellTag.td && c.dataStat == some key)

/-- `row.find(["td", "th"], &#123;"data-stat": key&#125;)`-style lookup. -/
def findAnyStat (r : Row) (key : String) : Option Cell :=
  r.cells.find? (fun c => c.dataStat == some key)

/-- Matcher for `(\d+)\s+Yrs` (case-sensitive, searched anywhere). -/
def yrsAt : MatcherAt := fun _ cs =>
  match digits1 cs with
  | none => none
  | some (ds, r) =>
    match ws1 r with
    | none => none
    | some r2 => if prefCS (("Yrs").toList) r2 then some (some (String.mk ds)) else none

/-- `re.search(r"(\d+)\s+Yrs", years_text)`, group 1. -/
def yrsSearch (s : String) : Option String :=
  (searchAux yrsAt none s.toList).bind id

/-- Lines 262-269: the `years_active` entry (absent when the row has no
    header cell or neither form matches). -/
def yearsActiveVal (r : Row) : Option String :=
  match findTh r with
  | none => none
  | some c =>
    let yt := pyStrip c.text
    match yrsSearch yt with
    | some g => some g
    | none => if hasSubStr ("Career") yt then some ("Career") else none

/-- `re.search(r"^\d+\s+Yrs\s+(\d+)", row_text_full)`, group 1. -/
def gamesAfterYrs (s : String) : Option String :=
  match digits1 s.toList with
  | none => none
  | some (_, r) =>
    match ws1 r with
    | none => none
    | some r2 =>
      match litCS (("Yrs").toList) r2 with
      | none => none
      | some r3 =>
        match ws1 r3 with
        | none => none
        | some r4 => (digits1 r4).map (fun q => String.mk q.1)

/-- The per-game stats dict built from the selected career row
    (lines 261-315), in the source's insertion order. -/
def careerFields (r : Row) : FieldMap :=
  (match yearsActiveVal r with
   | some v => [(("years_active"), some (RawVal.str v))]
   | none => []) ++
  [(("games_played"),
    (match gamesAfterYrs (pyStrip (rowText r)) with
     | some g => some (RawVal.str g)
     | none => (parseTableCell (findAnyStat r ("g"))).map RawVal.str)),
   (("minutes_per_game"), (parseTableCell (findTdStat r ("mp_per_g"))).map RawVal.str),
   (("field_goal_pct"), (parseTableCell (findTdStat r ("fg_pct"))).map RawVal.str),
   (("three_point_pct"), (parseTableCell (findTdStat r ("fg3_pct"))).map RawVal.str),
   (("free_throw_pct"), (parseTableCell (findTdStat r ("ft_pct"))).map RawVal.str),
   (("points_per_game"), (parseTableCell (findTdStat r ("pts_per_g"))).map RawVal.str),
   (("rebounds_per_game"), (parseTableCell (findTdStat r ("trb_per_g"))).map RawVal.str),
   (("assists_per_game"), (parseTableCell (findTdStat r ("ast_per_g"))).map RawVal.str),
   (("steals_per_game"), (parseTableCell (findTdStat r ("stl_per_g"))).map RawVal.str),
   (("blocks_per_game"), (parseTableCell (findTdStat r ("blk_per_g"))).map RawVal.str)]

/-- `_parse_career_stats` (lines 212-322): anchored on `pts_per_g`; every
    failure step yields the empty dict. -/
def parseCareerStats (soupParse : String → Option Table) (htmlText : String) : FieldMap :=
  match extractTableSurgically htmlText ("pts_per_g") with
  | none => []
  | some th =>
    if th = ("") then []
    else
      match soupParse th with
      | none => []
      | some table =>
        match perGameCareerRow table with
        | none => []
        | some r => careerFields r

/-- The advanced stats dict built from the selected career row
    (lines 390-410). -/
def advancedFields (r : Row) : FieldMap :=
  [(("player_efficiency_rating"), (parseTableCell (findTdStat r ("per"))).map RawVal.str),
   (("true_shooting_pct"), (parseTableCell (findTdStat r ("ts_pct"))).map RawVal.str),
   (("usage_rate"), (parseTableCell (findTdStat r ("usg_pct"))).map RawVal.str),
   (("box_plus_minus"), (parseTableCell (findTdStat r ("bpm"))).map RawVal.str),
   (("win_shares"), (parseTableCell (findTdStat r ("ws"))).map RawVal.str),
   (("win_shares_per_48"), (parseTableCell (findTdStat r ("ws_per_48"))).map RawVal.str),
   (("value_over_replacement"), (parseTableCell (findTdStat r ("vorp"))).map RawVal.str)]

/-- `_parse_advanced_stats` (lines 324-417): anchored on `per`. -/
def parseAdvancedStats (soupParse : String → Option Table) (htmlText : String) : FieldMap :=
  match extractTableSurgically htmlText ("per") with
  | none => []
  | some th =>
    if th = ("") then []
    else
      match soupParse th with
      | none => []
      | some table =>
        match advCareerRow table with
        | none => []
        | some r => advancedFields r

/-!  `_parse_bio_info` (lines 419-462): the position regex
`Position:\s*</strong>\s*([A-Za-z\s]+?)(?:\s*&#9642;|\s*▪|\s*<strong>|\s*Shoots)`.
The lazy capture takes the shortest non-empty class run after which one of
the terminator alternatives matches.  (Backtracking the preceding `\s*` can
only ever produce an all-whitespace capture, which the post-processing
rejects exactly like a failed match, so the greedy embedding below is
outcome-equivalent.) -/

/-- The capture class `[A-Za-z\s]`. -/
def isPosClassCh (c : Char) : Bool :=
  (('A' ≤ c) && (c ≤ 'Z')) || (('a' ≤ c) && (c ≤ 'z')) || isSpaceCh c

/-- The terminator alternatives, each `\s*` then a literal. -/
def bioAlt (cs : List Char) : Bool :=
  prefCS (("&#9642;").toList) (cs.dropWhile isSpaceCh)
    || prefCS (("▪").toList) (cs.dropWhile isSpaceCh)
    || prefCS (("<strong>").toList) (cs.dropWhile isSpaceCh)
    || prefCS (("Shoots").toList) (cs.dropWhile isSpaceCh)

/-- Lazy `[A-Za-z\s]+?` growth: accept as soon as a terminator follows. -/
def bioCapAux : List Char → List Char → Option (List Char)
  | acc, cs =>
    if bioAlt cs then some acc.reverse
    else
      match cs with
      | [] => none
      | c :: rest => if isPosClassCh c then bioCapAux (c :: acc) rest else none

/-- The position matcher at one position. -/
def bioAt : MatcherAt := fun _ cs =>
  match litCS (("Position:").toList) cs with
  | none => none
  | some r =>
    match litCS (("</strong>").toList) (r.dropWhile isSpaceCh) with
    | none => none
    | some r2 =>
      match r2.dropWhile isSpaceCh with
      | [] => none
      | c :: rest =>
        if isPosClassCh c then (bioCapAux [c] rest).map (fun g => some (String.mk g))
        else none

/-- The position search over the document text. -/
def bioSearch (s : String) : Option String :=
  (searchAux bioAt none s.toList).bind id

/-- Split on whitespace runs, dropping empties (Python `str.split()`). -/
def wordsOfAux : List Char → List Char → List (List Char)
  | acc, [] => if acc.isEmpty then [] else [acc.reverse]
  | acc, c :: rest =>
    if isSpaceCh c then
      if acc.isEmpty then wordsOfAux [] rest
      else acc.reverse :: wordsOfAux [] rest
    else wordsOfAux (c :: acc) rest

/-- Join words with single spaces. -/
def joinWithSpace : List String → String
  | [] => ("")
  | [w] => w
  | w :: ws => w ++ (" ") ++ joinWithSpace ws

/-- Python `" ".join(s.split())`. -/
def collapseWs (s : String) : String :=
  joinWithSpace ((wordsOfAux [] s.toList).map String.mk)

/-- Characters before the first occurrence of `pat` (whole string if
    absent): Python `s.split(pat)[0]`. -/
def upToSub (pat : List Char) : List Char → List Char
  | [] => []
  | c :: rest => if pat.isPrefixOf (c :: rest) then [] else c :: upToSub pat rest

/-- Lines 440-455: sanitise the captured position text. -/
def positionOf (g : String) : Option String :=
  let p1 := collapseWs (pyStrip g)
  let p2 :=
    if hasSubStr (" and ") p1 then pyStrip (String.mk (upToSub ((" and ").toList) p1.toList))
    else p1
  if p2 ≠ ("") ∧ p2.length < 30 then some p2 else none

/-- `_parse_bio_info`. -/
def parseBioInfo (htmlText : String) : FieldMap :=
  match bioSearch htmlText with
  | none => []
  | some g =>
    match positionOf g with
    | some p => [(("position"), some (RawVal.str p))]
    | none => []

/-!  Python `float(...)` coercion, idealised over exact rationals. -/

/-- A Python float value as typed assembly stores it. -/
inductive PyFloat
  | finite (q : ℚ)
  | inf
  | ninf
  | nan
deriving DecidableEq

/-- An unsigned float magnitude. -/
inductive FloatMag
  | fin (q : ℚ)
  | infm
  | nanm

/-- Exponent digits with optional sign, fully consumed. -/
def expParseFull : List Char → Option Int
  | '+' :: r =>
    (match digRun r with
     | some (ds, []) => some ((natOfDigits ds : Int))
     | _ => none)
  | '-' :: r =>
    (match digRun r with
     | some (ds, []) => some (-(natOfDigits ds : Int))
     | _ => none)
  | r =>
    (match digRun r with
     | some (ds, []) => some ((natOfDigits ds : Int))
     | _ => none)

/-- Value of integer digits `ip`, fraction digits `fp` and exponent `e`,
    that is `digits * 10 ^ (e - |fp|)`, built through `mkRat` so that it
    evaluates by kernel reduction. -/
def mkQ (ip fp : List Char) (e : Int) : ℚ :=
  let m : Int := (natOfDigits (ip ++ fp) : Int)
  let sh : Int := e - (fp.length : Int)
  if 0 ≤ sh then mkRat (m * (10 : Int) ^ sh.toNat) 1
  else mkRat m ((10 : Nat) ^ (-sh).toNat)

/-- After the mantissa: nothing, or an `e`/`E` exponent, fully consumed. -/
def numTail (ip fp : List Char) : List Char → Option ℚ
  | [] => some (mkQ ip fp 0)
  | c :: r =>
    if c == 'e' || c == 'E' then (expParseFull r).map (mkQ ip fp)
    else none

/-- A decimal mantissa with optional fraction and exponent. -/
def numParse (u : List Char) : Option ℚ :=
  match digRun u with
  | some (ip, r) =>
    match r with
    | '.' :: r2 =>
      (match digRun r2 with
       | some (fp, r3) => numTail ip fp r3
       | none => numTail ip [] r2)
    | _ => numTail ip [] r
  | none =>
    match u with
    | '.' :: r2 =>
      (match digRun r2 with
       | some (fp, r3) => numTail [] fp r3
       | none => none)
    | _ => none

/-- The unsigned part of a float literal: `inf`, `infinity`, `nan` (all
    case-insensitive) or a number. -/
def pyFloatMagParse (u : List Char) : Option FloatMag :=
  if prefCI (("infinity").toList) u && (u.drop 8).isEmpty then some FloatMag.infm
  else if prefCI (("inf").toList) u && (u.drop 3).isEmpty then some FloatMag.infm
  else if prefCI (("nan").toList) u && (u.drop 3).isEmpty then some FloatMag.nanm
  else (numParse u).map FloatMag.fin

/-- Python `float(s)`; `none` models the `ValueError` the source catches. -/
def pyFloat? (s : String) : Option PyFloat :=
  let signed : Bool → List Char → Option PyFloat := fun neg u =>
    match pyFloatMagParse u with
    | none => none
    | some FloatMag.infm => some (if neg then PyFloat.ninf else PyFloat.inf)
    | some FloatMag.nanm => some PyFloat.nan
    | some (FloatMag.fin q) => some (PyFloat.finite (if neg then -q else q))
  match trimWs s.toList with
  | '+' :: u => signed false u
  | '-' :: u => signed true u
  | u => signed false u

/-- `int(value)` in the assembly loop: values may be strings or the
    accolade counter's integers. -/
def pyIntOfVal : RawVal → Option Int
  | RawVal.str s => pyInt? s
  | RawVal.nat n => some ((n : Int))

/-- `float(value)` in the assembly loop. -/
def pyFloatOfVal : RawVal → Option PyFloat
  | RawVal.str s => pyFloat? s
  | RawVal.nat n => some (PyFloat.finite ((n : ℚ)))

/-- The `PlayerStats` dataclass: identity fields plus 27 optional fields,
    absent (`None`) until assembly sets them. -/
structure PlayerRecord where
  name : RawVal
  player_id : RawVal
  url : RawVal
  games_played : Option Int
  points_per_game : Option PyFloat
  rebounds_per_game : Option PyFloat
  assists_per_game : Option PyFloat
  steals_per_game : Option PyFloat
  blocks_per_game : Option PyFloat
  minutes_per_game : Option PyFloat
  field_goal_pct : Option PyFloat
  three_point_pct : Option PyFloat
  free_throw_pct : Option PyFloat
  true_shooting_pct : Option PyFloat
  player_efficiency_rating : Option PyFloat
  usage_rate : Option PyFloat
  box_plus_minus : Option PyFloat
  win_shares : Option PyFloat
  win_shares_per_48 : Option PyFloat
  value_over_replacement : Option PyFloat
  championships : Option Int
  mvp_awards : Option Int
  finals_mvp_awards : Option Int
  scoring_titles : Option Int
  all_star_selections : Option Int
  all_nba_selections : Option Int
  all_defensive_selections : Option Int
  dpoy_awards : Option Int
  position : Option RawVal
  years_active : Option RawVal
deriving DecidableEq

/-- The integer-field key list of lines 633-636. -/
def intFieldNames : List String :=
  [("games_played"), ("championships"), ("mvp_awards"), ("finals_mvp_awards"),
   ("scoring_titles"), ("all_star_selections"), ("all_nba_selections"),
   ("all_defensive_selections"), ("dpoy_awards")]

/-- The float-field key list of lines 639-644. -/
def floatFieldNames : List String :=
  [("points_per_game"), ("rebounds_per_game"), ("assists_per_game"),
   ("steals_per_game"), ("blocks_per_game"), ("minutes_per_game"),
   ("field_goal_pct"), ("three_point_pct"), ("free_throw_pct"),
   ("true_shooting_pct"), ("player_efficiency_rating"), ("usage_rate"),
   ("box_plus_minus"), ("win_shares"), ("win_shares_per_48"),
   ("value_over_replacement")]

/-- All dataclass attribute names (`hasattr`). -/
def allFieldNames : List String :=
  [("name"), ("player_id"), ("url")] ++ intFieldNames ++ floatFieldNames
    ++ [("position"), ("years_active")]

/-- Set one integer-typed attribute. -/
def setIntField (p : PlayerRecord) (k : String) (n : Int) : PlayerRecord :=
  if k == ("games_played") then { p with games_played := some n }
  else if k == ("championships") then { p with championships := some n }
  else if k == ("mvp_awards") then { p with mvp_awards := some n }
  else if k == ("finals_mvp_awards") then { p with finals_mvp_awards := some n }
  else if k == ("scoring_titles") then { p with scoring_titles := some n }
  else if k == ("all_star_selections") then { p with all_star_selections := some n }
  else if k == ("all_nba_selections") then { p with all_nba_selections := some n }
  else if k == ("all_defensive_selections") then { p with all_defensive_selections := some n }
  else if k == ("dpoy_awards") then { p with dpoy_awards := some n }
  else p

/-- Set one float-typed attribute. -/
def setFloatField (p : PlayerRecord) (k : String) (q : PyFloat) : PlayerRecord :=
  if k == ("points_per_game") then { p with points_per_game := some q }
  else if k == ("rebounds_per_game") then { p with rebounds_per_game := some q }
  else if k == ("assists_per_game") then { p with assists_per_game := some q }
  else if k == ("steals_per_game") then { p with steals_per_game := some q }
  else if k == ("blocks_per_game") then { p with blocks_per_game := some q }
  else if k == ("minutes_per_game") then { p with minutes_per_game := some q }
  else if k == ("field_goal_pct") then { p with field_goal_pct := some q }
  else if k == ("three_point_pct") then { p with three_point_pct := some q }
  else if k == ("free_throw_pct") then { p with free_throw_pct := some q }
  else if k == ("true_shooting_pct") then { p with true_shooting_pct := some q }
  else if k == ("player_efficiency_rating") then { p with player_efficiency_rating := some q }
  else if k == ("usage_rate") then { p with usage_rate := some q }
  else if k == ("box_plus_minus") then { p with box_plus_minus := some q }
  else if k == ("win_shares") then { p with win_shares := some q }
  else if k == ("win_shares_per_48") then { p with win_shares_per_48 := some q }
  else if k == ("value_over_replacement") then { p with value_over_replacement := some q }
  else p

/-- Set one remaining attribute (the `else: setattr(...)` branch). -/
def setOtherField (p : PlayerRecord) (k : String) (v : RawVal) : PlayerRecord :=
  if k == ("name") then { p with name := v }
  else if k == ("player_id") then { p with player_id := v }
  else if k == ("url") then { p with url := v }
  else if k == ("position") then { p with position := some v }
  else if k == ("years_active") then { p with years_active := some v }
  else p

/-- One iteration of the assembly loop (lines 629-649): skip `None` values
    and unknown attributes; coerce by the declared per-key type, absorbing
    a coercion failure by leaving the record unchanged. -/
def setField (p : PlayerRecord) (kv : String × Option RawVal) : PlayerRecord :=
  match kv.2 with
  | none => p
  | some v =>
    if allFieldNames.contains kv.1 then
      if intFieldNames.contains kv.1 then
        match pyIntOfVal v with
        | some n => setIntField p kv.1 n
        | none => p
      else if floatFieldNames.contains kv.1 then
        match pyFloatOfVal v with
        | some q => setFloatField p kv.1 q
        | none => p
      else setOtherField p kv.1 v
    else p

/-- The assembly loop over a merged field map. -/
def assembleLoop (p : PlayerRecord) (m : FieldMap) : PlayerRecord :=
  m.foldl setField p

/-- The freshly initialised `PlayerStats` of lines 613-617. -/
def initRecord (playerName playerId url : String) : PlayerRecord :=
  ⟨RawVal.str playerName, RawVal.str playerId, RawVal.str url,
   none, none, none, none, none, none, none, none, none, none, none, none,
   none, none, none, none, none, none, none, none, none, none, none, none,
   none, none, none⟩

/-- The accolade dict as a field map, in its insertion order. -/
def accoladeEntries (a : Accolades) : FieldMap :=
  [(("championships"), some (RawVal.nat a.championships)),
   (("mvp_awards"), some (RawVal.nat a.mvp_awards)),
   (("finals_mvp_awards"), some (RawVal.nat a.finals_mvp_awards)),
   (("scoring_titles"), some (RawVal.nat a.scoring_titles)),
   (("all_star_selections"), some (RawVal.nat a.all_star_selections)),
   (("all_nba_selections"), some (RawVal.nat a.all_nba_selections)),
   (("all_defensive_selections"), some (RawVal.nat a.all_defensive_selections)),
   (("dpoy_awards"), some (RawVal.nat a.dpoy_awards))]

/-- Lines 608-652 of `scrape_player` after a successful fetch: run the four
    extractors, merge their dicts and assemble the typed record.  The four
    dicts have pairwise disjoint key sets, so folding their concatenation
    coincides with Python's `&#123;**a, **b, **c, **d&#125;` merge followed
    by iteration. -/
def scrapeAssemble (soupParse : String → Option Table)
    (playerId playerName url htmlText : String) : PlayerRecord :=
  assembleLoop (initRecord playerName playerId url)
    (parseCareerStats soupParse htmlText ++ parseAdvancedStats soupParse htmlText
      ++ parseBioInfo htmlText ++ accoladeEntries (countAccolades htmlText))

/-- A parse stub for documents in which no region is ever located (the
    parser is then never consulted). -/
def soupNone : String → Option Table := fun _ => none

/-- The all-zero accolade map (the initial dict of lines 503-512). -/
def zeroAccolades : Accolades := ⟨0, 0, 0, 0, 0, 0, 0, 0⟩

/-! Claim C7. -/

/-- The field's declared coercion rejects the raw value. -/
def coerceFails (k : String) (v : RawVal) : Bool :=
  if intFieldNames.contains k then (pyIntOfVal v).isNone
  else if floatFieldNames.contains k then (pyFloatOfVal v).isNone
  else false

/-- A failing coercion makes the loop iteration a no-op. -/
theorem setField_of_coerce_fail (p : PlayerRecord) (k : String) (v : RawVal)
    (h : coerceFails k v = true) : setField p (k, some v) = p := by
  unfold coerceFails at h
  have hred : setField p (k, some v) =
      (if allFieldNames.contains k then
        if intFieldNames.contains k then
          match pyIntOfVal v with
          | some n => setIntField p k n
          | none => p
        else if floatFieldNames.contains k then
          match pyFloatOfVal v with
          | some q => setFloatField p k q
          | none => p
        else setOtherField p k v
      else p) := rfl
  rw [hred]
  by_cases h3 : allFieldNames.contains k = true
  case neg => rw [if_neg h3]
  rw [if_pos h3]
  by_cases h1 : intFieldNames.contains k = true
  · rw [if_pos h1] at h
    have h2 : pyIntOfVal v = none := Option.isNone_iff_eq_none.mp h
    rw [if_pos h1, h2]
  · rw [if_neg h1] at h
    rw [if_neg h1]
    by_cases h4 : floatFieldNames.contains k = true
    · rw [if_pos h4] at h
      have h2 : pyFloatOfVal v = none := Option.isNone_iff_eq_none.mp h
      rw [if_pos h4, h2]
    · rw [if_neg h4] at h
      cases h

/-- C7: in typed assembly, a type-coercion failure for one field leaves the
    merged map's effect exactly as if that entry were absent — the failing
    field stays absent and every other field's coercion and presence is
    untouched. -/
theorem typed_assembly_failure_isolated (p0 : PlayerRecord) (m₁ m₂ : FieldMap)
    (k : String) (v : RawVal) (h : coerceFails k v = true) :
    assembleLoop p0 (m₁ ++ (k, some v) :: m₂) = assembleLoop p0 (m₁ ++ m₂) := by
  unfold assembleLoop
  rw [List.foldl_append, List.foldl_append, List.foldl_cons,
    setField_of_coerce_fail _ k v h]

/-- Witness for C7: `games_played = "abc"` fails integer coercion and is
    absent, while the float field before it and the integer field after it
    are present and correctly typed. -/
theorem typed_assembly_failure_isolated_witness :
    coerceFails ("games_played") (RawVal.str ("abc")) = true ∧
    assembleLoop (initRecord ("LeBron James") ("jamesle01") ("u"))
        [(("points_per_game"), some (RawVal.str ("27.1"))),
         (("games_played"), some (RawVal.str ("abc"))),
         (("mvp_awards"), some (RawVal.nat 4))] =
      assembleLoop (initRecord ("LeBron James") ("jamesle01") ("u"))
        [(("points_per_game"), some (RawVal.str ("27.1"))),
         (("mvp_awards"), some (RawVal.nat 4))] ∧
    (assembleLoop (initRecord ("LeBron James") ("jamesle01") ("u"))
        [(("points_per_game"), some (RawVal.str ("27.1"))),
         (("games_played"), some (RawVal.str ("abc"))),
         (("mvp_awards"), some (RawVal.nat 4))]).games_played = none ∧
    (assembleLoop (initRecord ("LeBron James") ("jamesle01") ("u"))
        [(("points_per_game"), some (RawVal.str ("27.1"))),
         (("games_played"), some (RawVal.str ("abc"))),
         (("mvp_awards"), some (RawVal.nat 4))]).points_per_game
      = some (PyFloat.finite (mkRat 271 10)) ∧
    (assembleLoop (initRecord ("LeBron James") ("jamesle01") ("u"))
        [(("points_per_game"), some (RawVal.str ("27.1"))),
         (("games_played"), some (RawVal.str ("abc"))),
         (("mvp_awards"), some (RawVal.nat 4))]).mvp_awards = some 4 := by
  refine ⟨by decide, ?_, by decide, by decide, by decide⟩
  exact typed_assembly_failure_isolated (initRecord ("LeBron James") ("jamesle01") ("u"))
    [(("points_per_game"), some (RawVal.str ("27.1")))]
    [(("mvp_awards"), some (RawVal.nat 4))]
    ("games_played") (RawVal.str ("abc")) (by decide)

/-! Claim C6. -/

/-- C6 counterexample: the document "hello" matches none of the engine's
    assumptions (no anchors, no bio match, no accolade pattern), yet the
    assembled record is not identity-only: the eight accolade counts are
    present with value 0 (the zero-initialised counts survive `to_dict`
    because they are not `None`). -/
theorem minimal_record_counterexample :
    extractTableSurgically ("hello") ("pts_per_g") = none ∧
    extractTableSurgically ("hello") ("per") = none ∧
    parseBioInfo ("hello") = [] ∧
    countAccolades ("hello") = zeroAccolades ∧
    (scrapeAssemble soupNone ("x01") ("Player X") ("u") ("hello")).championships
      = some 0 ∧
    (scrapeAssemble soupNone ("x01") ("Player X") ("u") ("hello")).championships
      ≠ none := by
  decide

/-- C6 (amended): a document matching none of the engine's assumptions
    yields, with no exception, a near-minimal record: the identity fields
    plus the eight accolade-count fields, each present with value 0; every
    other non-identity field is absent. -/
theorem minimal_record_on_no_match (soupParse : String → Option Table)
    (playerId playerName url htmlText : String)
    (h1 : extractTableSurgically htmlText ("pts_per_g") = none)
    (h2 : extractTableSurgically htmlText ("per") = none)
    (h3 : parseBioInfo htmlText = [])
    (h4 : countAccolades htmlText = zeroAccolades) :
    scrapeAssemble soupParse playerId playerName url htmlText =
      { initRecord playerName playerId url with
          championships := some 0, mvp_awards := some 0, finals_mvp_awards := some 0,
          scoring_titles := some 0, all_star_selections := some 0,
          all_nba_selections := some 0, all_defensive_selections := some 0,
          dpoy_awards := some 0 } := by
  unfold scrapeAssemble parseCareerStats parseAdvancedStats
  rw [h1, h2, h3, h4]
  rfl

/-- Witness for the amended C6 at the no-match document "hello". -/
theorem minimal_record_on_no_match_witness :
    scrapeAssemble soupNone ("x01") ("Player X") ("u") ("hello") =
      { initRecord ("Player X") ("x01") ("u") with
          championships := some 0, mvp_awards := some 0, finals_mvp_awards := some 0,
          scoring_titles := some 0, all_star_selections := some 0,
          all_nba_selections := some 0, all_defensive_selections := some 0,
          dpoy_awards := some 0 } :=
  minimal_record_on_no_match soupNone ("x01") ("Player X") ("u") ("hello")
    (by decide) (by decide) (by decide) (by decide)

/-! Claim C9. -/

/-- The keys the per-game extractor can produce. -/
def careerKeys : List String :=
  [("years_active"), ("games_played"), ("minutes_per_game"), ("field_goal_pct"),
   ("three_point_pct"), ("free_throw_pct"), ("points_per_game"),
   ("rebounds_per_game"), ("assists_per_game"), ("steals_per_game"),
   ("blocks_per_game")]

/-- The keys the advanced extractor can produce. -/
def advancedKeys : List String :=
  [("player_efficiency_rating"), ("true_shooting_pct"), ("usage_rate"),
   ("box_plus_minus"), ("win_shares"), ("win_shares_per_48"),
   ("value_over_replacement")]

/-- Every per-game dict entry uses a declared key. -/
theorem careerFields_key_mem (r : Row) :
    ∀ kv ∈ careerFields r, careerKeys.contains kv.1 = true := by
  intro kv h
  unfold careerFields at h
  cases hy : yearsActiveVal r with
  | none =>
    rw [hy] at h
    simp only [List.nil_append, List.mem_cons, List.not_mem_nil, or_false] at h
    rcases h with rfl | rfl | rfl | rfl | rfl | rfl | rfl | rfl | rfl | rfl <;> rfl
  | some v =>
    rw [hy] at h
    simp only [List.cons_append, List.nil_append, List.mem_cons,
      List.not_mem_nil, or_false] at h
    rcases h with rfl | rfl | rfl | rfl | rfl | rfl | rfl | rfl | rfl | rfl | rfl <;> rfl

/-- Every advanced dict entry uses a declared key. -/
theorem advancedFields_key_mem (r : Row) :
    ∀ kv ∈ advancedFields r, advancedKeys.contains kv.1 = true := by
  intro kv h
  unfold advancedFields at h
  simp only [List.mem_cons, List.not_mem_nil, or_false] at h
  rcases h with rfl | rfl | rfl | rfl | rfl | rfl | rfl <;> rfl

/-- The resolver never exceeds the plausible maximum (when that is at
    least 1, as in every call the source makes). -/
theorem extractCount_le (htmlText : String) (patterns : List Pattern) (maxVal : Nat)
    (h : 1 ≤ maxVal) : extractCount htmlText patterns maxVal ≤ maxVal := by
  induction patterns with
  | nil => exact Nat.zero_le maxVal
  | cons p rest ih =>
    unfold extractCount
    cases hp : p htmlText with
    | none => exact ih
    | some g =>
      cases g with
      | none => exact h
      | some s =>
        show (if s ≠ ("") then
            (match pyInt? s with
             | some v => if 1 ≤ v ∧ v ≤ (maxVal : Int) then v.toNat else 1
             | none => 1)
          else 1) ≤ maxVal
        by_cases hs : s ≠ ("")
        · rw [if_pos hs]
          cases hv : pyInt? s with
          | none => exact h
          | some v =>
            show (if 1 ≤ v ∧ v ≤ (maxVal : Int) then v.toNat else 1) ≤ maxVal
            by_cases hr : 1 ≤ v ∧ v ≤ (maxVal : Int)
            · rw [if_pos hr]
              exact Int.toNat_le.mpr hr.2
            · rw [if_neg hr]
              exact h
        · rw [if_neg hs]
          exact h

/-- A removal pass never lengthens the text. -/
theorem removeAllF_length_le (pat : List Char) (f : Nat) :
    ∀ s : List Char, (removeAllF pat f s).length ≤ s.length := by
  induction f with
  | zero => intro s; exact le_refl _
  | succ f ih =>
    intro s
    cases s with
    | nil => exact le_refl _
    | cons c rest =>
      unfold removeAllF
      by_cases hc : (!pat.isEmpty && pat.isPrefixOf (c :: rest)) = true
      · rw [if_pos hc]
        calc (removeAllF pat f ((c :: rest).drop pat.length)).length
            ≤ ((c :: rest).drop pat.length).length := ih _
          _ ≤ (c :: rest).length := by
              rw [List.length_drop]
              omega
      · rw [if_neg hc]
        simp only [List.length_cons]
        exact Nat.succ_le_succ (ih rest)

/-- Comment unmasking never lengthens the text. -/
theorem unmask_length_le (s : List Char) : (unmask s).length ≤ s.length :=
  le_trans (removeAllF_length_le closeTok _ _)
    (removeAllF_length_le openTok _ _)

/-- The per-game extractor yields the empty dict or a career-row dict. -/
theorem parseCareerStats_cases (soupParse : String → Option Table) (htmlText : String) :
    parseCareerStats soupParse htmlText = [] ∨
    ∃ r, parseCareerStats soupParse htmlText = careerFields r := by
  unfold parseCareerStats
  split
  · exact Or.inl rfl
  · split
    · exact Or.inl rfl
    · split
      · exact Or.inl rfl
      · split
        · exact Or.inl rfl
        · exact Or.inr ⟨_, rfl⟩

/-- The advanced extractor yields the empty dict or a career-row dict. -/
theorem parseAdvancedStats_cases (soupParse : String → Option Table) (htmlText : String) :
    parseAdvancedStats soupParse htmlText = [] ∨
    ∃ r, parseAdvancedStats soupParse htmlText = advancedFields r := by
  unfold parseAdvancedStats
  split
  · exact Or.inl rfl
  · split
    · exact Or.inl rfl
    · split
      · exact Or.inl rfl
      · split
        · exact Or.inl rfl
        · exact Or.inr ⟨_, rfl⟩

/-- The bio extractor yields the empty dict or a single position entry. -/
theorem parseBioInfo_cases (htmlText : String) :
    parseBioInfo htmlText = [] ∨
    ∃ p, parseBioInfo htmlText = [(("position"), some (RawVal.str p))] := by
  unfold parseBioInfo
  split
  · exact Or.inl rfl
  · split
    · exact Or.inr ⟨_, rfl⟩
    · exact Or.inl rfl

/-- The region locator yields nothing or an unmasked slice. -/
theorem extractTableSurgically_cases (htmlText ident : String) :
    extractTableSurgically htmlText ident = none ∨
    ∃ p e, extractTableSurgically htmlText ident =
      some (String.mk (unmask ((htmlText.toList.drop p).take (e - p)))) := by
  unfold extractTableSurgically
  split
  · exact Or.inl rfl
  · split
    · exact Or.inl rfl
    · split
      · exact Or.inl rfl
      · exact Or.inr ⟨_, _, rfl⟩

/-- C9: every extraction stage is total on arbitrary input text.  In this
    embedding each stage is a total function by construction (all scans are
    bounded and every failure is an explicit `none`/empty result); this
    theorem exhibits, for every document (including empty and malformed
    ones) and every parse outcome, the well-formedness of each stage's
    value: the stat extractors only produce their declared keys, the bio
    extractor only the position key, a located region is never longer than
    the document, and every accolade count respects its plausible maximum. -/
theorem extraction_stages_total (soupParse : String → Option Table)
    (htmlText ident : String) :
    ((parseCareerStats soupParse htmlText).map Prod.fst).all careerKeys.contains = true ∧
    ((parseAdvancedStats soupParse htmlText).map Prod.fst).all advancedKeys.contains = true ∧
    ((parseBioInfo htmlText).map Prod.fst).all (fun k => k == ("position")) = true ∧
    ((extractTableSurgically htmlText ident).map String.length).getD 0 ≤ htmlText.length ∧
    (countAccolades htmlText).championships ≤ 50 ∧
    (countAccolades htmlText).mvp_awards ≤ 50 ∧
    (countAccolades htmlText).finals_mvp_awards ≤ 50 ∧
    (countAccolades htmlText).scoring_titles ≤ 50 ∧
    (countAccolades htmlText).all_star_selections ≤ 50 ∧
    (countAccolades htmlText).all_nba_selections ≤ 50 ∧
    (countAccolades htmlText).all_defensive_selections ≤ 50 ∧
    (countAccolades htmlText).dpoy_awards ≤ 10 := by
  refine ⟨?_, ?_, ?_, ?_, ?_, ?_, ?_, ?_, ?_, ?_, ?_, ?_⟩
  · rw [List.all_eq_true]
    intro k hk
    rcases List.mem_map.mp hk with ⟨kv, hkv, rfl⟩
    rcases parseCareerStats_cases soupParse htmlText with hc | ⟨r, hc⟩
    · rw [hc] at hkv
      cases hkv
    · rw [hc] at hkv
      exact careerFields_key_mem r kv hkv
  · rw [List.all_eq_true]
    intro k hk
    rcases List.mem_map.mp hk with ⟨kv, hkv, rfl⟩
    rcases parseAdvancedStats_cases soupParse htmlText with hc | ⟨r, hc⟩
    · rw [hc] at hkv
      cases hkv
    · rw [hc] at hkv
      exact advancedFields_key_mem r kv hkv
  · rw [List.all_eq_true]
    intro k hk
    rcases List.mem_map.mp hk with ⟨kv, hkv, rfl⟩
    rcases parseBioInfo_cases htmlText with hc | ⟨pz, hc⟩
    · rw [hc] at hkv
      cases hkv
    · rw [hc] at hkv
      rcases List.mem_singleton.mp hkv with rfl
      rfl
  · rcases extractTableSurgically_cases htmlText ident with hc | ⟨p, e, hc⟩
    · rw [hc]
      exact Nat.zero_le _
    · rw [hc]
      show (unmask ((htmlText.toList.drop p).take (e - p))).length ≤ htmlText.length
      calc (unmask ((htmlText.toList.drop p).take (e - p))).length
          ≤ ((htmlText.toList.drop p).take (e - p)).length := unmask_length_le _
        _ ≤ (htmlText.toList.drop p).length := by
            rw [List.length_take]
            exact min_le_right _ _
        _ ≤ htmlText.toList.length := by
            rw [List.length_drop]
            omega
        _ = htmlText.length := rfl
  · exact extractCount_le htmlText [champPat] 50 (by decide)
  · exact extractCount_le htmlText [mvpPat1, mvpPat2] 50 (by decide)
  · exact extractCount_le htmlText [finalsMvpPat] 50 (by decide)
  · exact extractCount_le htmlText [scoringPat] 50 (by decide)
  · exact extractCount_le htmlText [allStarPat1, allStarPat2, allStarPat3] 50 (by decide)
  · exact extractCount_le htmlText [allNbaPat] 50 (by decide)
  · exact extractCount_le htmlText [allDefPat] 50 (by decide)
  · exact extractCount_le ((extractBlingSection htmlText).getD ("")) dpoyPatterns 10 (by decide)

/-! Claim C10. -/

/-- The error a Python expression such as `player_id[0]` raises on an
    empty string. -/
inductive PyError
  | indexError
deriving DecidableEq

/-- `BASE_URL` of line 79. -/
def BASE_URL : String := ("https://www.basketball-reference.com")

/-- `_construct_player_url` (lines 126-129): `player_id[0]` raises
    `IndexError` on the empty id; otherwise the formatted URL. -/
def constructPlayerUrl (playerId : String) : Except PyError String :=
  match playerId.toList with
  | [] => Except.error PyError.indexError
  | c :: _ =>
    Except.ok (BASE_URL ++ ("/players/") ++ String.mk [c.toLower] ++ ("/")
      ++ playerId ++ (".html"))

/-- The prefix of `scrape_player` (lines 597-604): the URL is constructed
    before the fetch, so an `IndexError` escapes before any request. -/
def scrapePlayerStart (fetch : String → Option String) (playerId : String) :
    Except PyError (Option String) :=
  match constructPlayerUrl playerId with
  | Except.error e => Except.error e
  | Except.ok url => Except.ok (fetch url)

/-- C10: `scrape_player` is partial in `player_id`: the empty id raises
    `IndexError` before any fetch happens (the outcome is the error for
    every fetch function), and every non-empty id yields exactly
    `BASE_URL + "/players/" + lowercased first character + "/" + id
    + ".html"`. -/
theorem construct_player_url_partial :
    (∀ fetch : String → Option String,
        scrapePlayerStart fetch ("") = Except.error PyError.indexError) ∧
    (∀ (playerId : String) (c : Char) (rest : List Char),
        playerId.toList = c :: rest →
        constructPlayerUrl playerId =
          Except.ok (BASE_URL ++ ("/players/") ++ String.mk [c.toLower] ++ ("/")
            ++ playerId ++ (".html"))) := by
  constructor
  · intro fetch
    rfl
  · intro playerId c rest h
    unfold constructPlayerUrl
    rw [h]

/-- Witness for C10 at the id the unit tests pin. -/
theorem construct_player_url_partial_witness :
    constructPlayerUrl ("jamesle01") =
      Except.ok ("https://www.basketball-reference.com/players/j/jamesle01.html") := by
  have h := construct_player_url_partial.2 ("jamesle01") 'j' (("amesle01").toList)
    (by decide)
  rw [h]
  rfl

end BRScraper
